import Mathlib

/-!
Shallow embedding of the `mongo-db-demo` repository: the Express web server
(`src/server.js`) over two MongoDB collections (`users` and `posts`), and the
demo orchestrator (`MongoDemo`, `demo.js`).

Collections are modelled as Lean lists of documents; MongoDB ObjectIds are
modelled as natural numbers (the value denoted by their 24 hex digits);
`insertOne` appends a document carrying a caller-supplied fresh id;
`findOne`/`deleteOne`/`updateOne` act on the first matching document, as the
driver does. Fields that may be absent from a request body (JavaScript
`undefined`) are `Option`s, and JavaScript string truthiness (`!x`) is the
test for a present, non-empty string.
-/

namespace MongoDemo

/-- A MongoDB ObjectId, modelled as the natural number denoted by its 24 hex
digits. -/
abbrev OId := Nat

/-- Value of one hex digit, or `none` for a non-hex character
(`ObjectId.createFromHexString` rejects the string in that case). -/
def hexDigitVal (c : Char) : Option Nat :=
  if '0' ≤ c ∧ c ≤ '9' then some (c.toNat - '0'.toNat)
  else if 'a' ≤ c ∧ c ≤ 'f' then some (c.toNat - 'a'.toNat + 10)
  else if 'A' ≤ c ∧ c ≤ 'F' then some (c.toNat - 'A'.toNat + 10)
  else none

/-- `ObjectId.createFromHexString`: succeeds exactly on 24-hex-digit strings;
a failure is a thrown exception in the source, hence `none` here. -/
def parseObjectId (s : String) : Option OId :=
  if s.length = 24 then
    s.data.foldl (fun acc c => acc.bind fun n => (hexDigitVal c).map fun d => n * 16 + d)
      (some 0)
  else none

/-- JavaScript truthiness of an optional string: `undefined` and the empty
string are falsy. -/
def truthy (x : Option String) : Bool :=
  match x with
  | none => false
  | some s => !(s == "")

/-- An address subdocument as stored by `POST /api/users`. -/
structure Address where
  street : String
  city : String
  zipCode : String
deriving Repr, DecidableEq

/-- A document of the `users` collection, restricted to the fields the server
code reads or writes. `name`/`age` are optional because the handler never
checks their presence. -/
structure User where
  _id : OId
  name : Option String
  email : String
  age : Option Int
  address : Address
deriving Repr, DecidableEq

/-- A document of the `posts` collection. `userId` is nullable (`undefined`
for seeded posts beyond the available users). -/
structure Post where
  _id : OId
  title : String
  body : String
  userId : Option OId
deriving Repr, DecidableEq

/-- The two collections the server works on. -/
structure DBState where
  users : List User
  posts : List Post
deriving Repr, DecidableEq

/-- An HTTP response as produced by the API handlers: a success envelope
(`res.json`) carrying a user, an inserted id, or just `success: true`, or an
error status with a JSON `{error: msg}` body. -/
inductive Resp where
  | jsonUser (user : User)
  | jsonId (id : OId)
  | jsonOk
  | err (status : Nat) (msg : String)
deriving Repr, DecidableEq

/-- The whitespace characters `String.prototype.trim` removes, restricted to
the common ASCII ones. -/
def isSpaceChar (c : Char) : Bool :=
  c == ' ' || c == '\t' || c == '\n' || c == '\r'

/-- `trim`: drop leading and trailing whitespace. -/
def trimChars (cs : List Char) : List Char :=
  ((cs.dropWhile isSpaceChar).reverse.dropWhile isSpaceChar).reverse

/-- Email normalization in `POST /api/users`: `email.trim().toLowerCase()`
(ASCII lowering). -/
def normalizeEmail (e : String) : String :=
  ⟨(trimChars e.data).map Char.toLower⟩

/-- The address-defaulting conditional of `POST /api/users` (server.js 72-86):
if any of street/city/zipCode is truthy, build the address from the request
fields with `|| ''` defaults; otherwise read the fields off the
already-empty `address` object (all `undefined`, hence `''`). -/
def buildAddress (street city zipCode : Option String) : Address :=
  let addrStreet : Option String := none
  let addrCity : Option String := none
  let addrZipCode : Option String := none
  if truthy street || truthy city || truthy zipCode then
    { street := street.getD "", city := city.getD "", zipCode := zipCode.getD "" }
  else
    { street := addrStreet.getD "", city := addrCity.getD "", zipCode := addrZipCode.getD "" }

/-- The single rule of spec §9: "use each provided field or the empty
string". Stated from the spec's words, for comparison with `buildAddress`. -/
def addressSpecRule (street city zipCode : Option String) : Address :=
  { street := street.getD "", city := city.getD "", zipCode := zipCode.getD "" }

/-- Body of a `POST /api/users` request; every field may be absent. -/
structure UserReq where
  name : Option String
  email : Option String
  age : Option Int
  street : Option String
  city : Option String
  zipCode : Option String
deriving Repr, DecidableEq

/-- `POST /api/users` (server.js 65-99): normalize the email (destructured
with default `''`), reject with 400 when a stored user already has it,
otherwise insert the document and return it with its new id. There is no
presence check on `name` or `age`. -/
def postUsers (st : DBState) (req : UserReq) (newId : OId) : DBState × Resp :=
  let email := normalizeEmail (req.email.getD "")
  match st.users.find? (fun u => u.email == email) with
  | some _ => (st, Resp.err 400 "Email already exists")
  | none =>
    let user : User :=
      { _id := newId, name := req.name, email := email, age := req.age,
        address := buildAddress req.street req.city req.zipCode }
    ({ st with users := st.users ++ [user] }, Resp.jsonUser user)

/-- Body of a `POST /api/posts` request. -/
structure PostReq where
  userId : Option String
  title : Option String
  body : Option String
deriving Repr, DecidableEq

/-- `POST /api/posts` (server.js 102-113): 400 when any field is falsy; a
malformed userId makes `createFromHexString` throw, caught as a 500; 404 when
no user has the id; otherwise insert the post and return its new id. -/
def postPosts (st : DBState) (req : PostReq) (newId : OId) : DBState × Resp :=
  if !truthy req.userId || !truthy req.title || !truthy req.body then
    (st, Resp.err 400 "Missing fields")
  else
    match parseObjectId (req.userId.getD "") with
    | none => (st, Resp.err 500 "Invalid hex string")
    | some uid =>
      match st.users.find? (fun u => u._id == uid) with
      | none => (st, Resp.err 404 "User not found")
      | some user =>
        ({ st with
            posts := st.posts ++
              [{ _id := newId, title := req.title.getD "", body := req.body.getD "",
                 userId := some user._id }] },
         Resp.jsonId newId)

/-- `DELETE /api/posts/:id` (server.js 115-123): 400 when the id does not
parse; otherwise `deleteOne` removes the first document with that `_id`,
answering `{success}` when `deletedCount` is nonzero and 404 otherwise. -/
def deletePost (st : DBState) (idStr : String) : DBState × Resp :=
  match parseObjectId idStr with
  | none => (st, Resp.err 400 "Invalid ID")
  | some pid =>
    if st.posts.any (fun p => p._id == pid) then
      ({ st with posts := st.posts.eraseP (fun p => p._id == pid) }, Resp.jsonOk)
    else (st, Resp.err 404 "Not found")

/-- `updateOne({_id: pid}, {$set: {userId: uid}})` on the posts collection:
set the field on the first matching document; `modifiedCount` is 1 exactly
when a document matched and its stored value differed. -/
def updateOneAssign : List Post → OId → OId → List Post × Nat
  | [], _, _ => ([], 0)
  | p :: ps, pid, uid =>
    if p._id = pid then
      ({ p with userId := some uid } :: ps, if p.userId = some uid then 0 else 1)
    else
      let r := updateOneAssign ps pid uid
      (p :: r.1, r.2)

/-- `PATCH /api/posts/:id/assign` (server.js 125-140): parse the body's
userId (a missing or malformed one throws, caught as 400), 404 when no user
has it, then update the post and answer `{success}` only when
`modifiedCount === 1`, else 404 "Post not found or not changed". -/
def patchAssign (st : DBState) (postIdStr : String) (userIdStr : Option String) :
    DBState × Resp :=
  match userIdStr.bind parseObjectId with
  | none => (st, Resp.err 400 "Invalid ID or bad data")
  | some uid =>
    match st.users.find? (fun u => u._id == uid) with
    | none => (st, Resp.err 404 "User not found")
    | some user =>
      match parseObjectId postIdStr with
      | none => (st, Resp.err 400 "Invalid ID or bad data")
      | some pid =>
        let r := updateOneAssign st.posts pid user._id
        if r.2 = 1 then ({ st with posts := r.1 }, Resp.jsonOk)
        else (st, Resp.err 404 "Post not found or not changed")

/-- The four fixed sample posts of the startup seed (server.js 32-37), with
`userId` taken from positions 0..3 of the users list; positions 1..3 use
optional chaining (`?.`), so a missing user yields an absent reference. -/
def seedSamplePosts (userList : List User) (fresh : Nat → OId) : List Post :=
  [ { _id := fresh 0, title := "Hello from Emma", body := "Emma post content",
      userId := (userList[0]?).map User._id },
    { _id := fresh 1, title := "Liam on the Beach", body := "Surfing diary",
      userId := (userList[1]?).map User._id },
    { _id := fresh 2, title := "Sophia’s Cooking", body := "Today I made pasta",
      userId := (userList[2]?).map User._id },
    { _id := fresh 3, title := "Noah’s Hike", body := "Reached mountain top!",
      userId := (userList[3]?).map User._id } ]

/-- The startup seed IIFE (server.js 27-40): when the posts collection is
empty and the users list is nonempty (`if (userList.length)`), insert the
four sample posts; otherwise do nothing. -/
def seedIfEmpty (st : DBState) (fresh : Nat → OId) : DBState :=
  if st.posts.length = 0 then
    if st.users.length ≠ 0 then
      { st with posts := st.posts ++ seedSamplePosts st.users fresh }
    else st
  else st

/-- One element of the `GET /api/posts` response: the post together with the
joined user, if any. -/
structure PostWithUser where
  post : Post
  user : Option User
deriving Repr, DecidableEq

/-- `GET /api/posts` (server.js 54-62): fetch both collections and join in
application code; the joined user is the first one whose `_id` equals the
post's `userId` (no match when `userId` is absent). -/
def getPosts (st : DBState) : List PostWithUser :=
  st.posts.map fun p =>
    { post := p
      user := match p.userId with
        | none => none
        | some uid => st.users.find? (fun u => u._id == uid) }

/-- The steps of `MongoDemo.runDemo` (demo.js 341-365), in order, plus the
`finally` disconnect. `clearCollection` is the inline `deleteMany({})` and
`finalCount` the inline `countDocuments()`, neither wrapped in its own
try/catch. -/
inductive Step where
  | connect
  | clearCollection
  | createIndexes
  | insertDocuments
  | readDocuments
  | updateDocuments
  | runAggregation
  | runGeospatialQueries
  | deleteDocuments
  | finalCount
  | disconnect
deriving Repr, DecidableEq, Fintype

/-- Whether a failure inside the step propagates out of the step's call: the
step's own catch block rethrows (`throw error`), or the step has no catch of
its own. From the source: `connect`, `insertDocuments`, `readDocuments` and
`updateDocuments` rethrow after logging; `createIndexes`, `runAggregation`,
`runGeospatialQueries` and `deleteDocuments` only log; the two inline steps
have no handler at all. -/
def rethrows : Step → Bool
  | .connect => true
  | .clearCollection => true
  | .createIndexes => false
  | .insertDocuments => true
  | .readDocuments => true
  | .updateDocuments => true
  | .runAggregation => false
  | .runGeospatialQueries => false
  | .deleteDocuments => false
  | .finalCount => true
  | .disconnect => false

/-- The critical steps as the spec states them (§4.1): connect and insert.
Stated from the spec's words, for comparison with `rethrows`. -/
def specCritical : Step → Bool
  | .connect => true
  | .insertDocuments => true
  | _ => false

/-- The body of `runDemo`'s try block, in source order. -/
def demoSequence : List Step :=
  [.connect, .clearCollection, .createIndexes, .insertDocuments, .readDocuments,
   .updateDocuments, .runAggregation, .runGeospatialQueries, .deleteDocuments,
   .finalCount]

/-- Execute a list of steps under an environment `fails` saying which steps
fail: a step is attempted, and when it fails and its failure propagates, the
remaining steps are skipped (`runDemo`'s catch logs and falls through). -/
def runSteps (fails : Step → Bool) : List Step → List Step
  | [] => []
  | s :: rest => s :: (if fails s && rethrows s then [] else runSteps fails rest)

/-- `MongoDemo.runDemo`: the steps attempted in a run, given which steps
fail; `disconnect` runs unconditionally in the `finally` block. -/
def runDemo (fails : Step → Bool) : List Step :=
  runSteps fails demoSequence ++ [Step.disconnect]

/-- A falsy optional string defaults to the empty string under `|| ''`. -/
lemma getD_empty_of_not_truthy {x : Option String} (h : truthy x = false) :
    x.getD "" = "" := by
  match x with
  | none => rfl
  | some s =>
    have hs : s = "" := by simpa [truthy] using h
    simp [hs]

/-- C9: the two branches of the address-defaulting conditional in
`POST /api/users` are behaviorally equivalent to the single rule "use each
provided field or the empty string", and on a request providing none of
street, city, zipCode the else branch yields the all-empty address. -/
theorem c9_address_defaulting (street city zipCode : Option String) :
    buildAddress street city zipCode = addressSpecRule street city zipCode ∧
    buildAddress none none none = { street := "", city := "", zipCode := "" } := by
  refine ⟨?_, rfl⟩
  simp only [buildAddress, addressSpecRule]
  by_cases h : (truthy street || truthy city || truthy zipCode) = true
  · simp [h]
  · have h' : (truthy street = false ∧ truthy city = false) ∧ truthy zipCode = false := by
      simpa [Bool.or_eq_false_iff] using h
    simp [h, getD_empty_of_not_truthy h'.1.1, getD_empty_of_not_truthy h'.1.2,
      getD_empty_of_not_truthy h'.2]

/-- C2 (counterexample): `readDocuments` rethrows on failure although the
claim lists it among the steps that log and continue; a run in which exactly
`readDocuments` fails stops there (no update, aggregation, geospatial or
delete step is attempted) and only the `finally` disconnect still runs. -/
theorem c2_counterexample :
    rethrows Step.readDocuments = true ∧
    specCritical Step.readDocuments = false ∧
    runDemo (fun s => s == Step.readDocuments) =
      [Step.connect, Step.clearCollection, Step.createIndexes, Step.insertDocuments,
       Step.readDocuments, Step.disconnect] := by
  decide

/-- C2 (amended): the steps whose failure aborts the remainder of the run
are connect, the inline collection clear, insert, read, update, and the
inline final count; a failure in index creation, aggregation, geospatial
queries or delete is logged and every remaining step is still attempted; the
disconnect of the `finally` block runs in either case. -/
theorem c2_critical_steps (s : Step) (h : s ∈ demoSequence) :
    (rethrows s = true ↔
      s = Step.connect ∨ s = Step.clearCollection ∨ s = Step.insertDocuments ∨
      s = Step.readDocuments ∨ s = Step.updateDocuments ∨ s = Step.finalCount) ∧
    (rethrows s = false →
      runDemo (fun t => t == s) = demoSequence ++ [Step.disconnect]) ∧
    (rethrows s = true →
      runDemo (fun t => t == s) =
        demoSequence.takeWhile (fun t => t != s) ++ [s, Step.disconnect]) := by
  revert s
  decide

/-- C2 (witness): a run in which exactly `createIndexes` fails still attempts
every step of the sequence and disconnects. -/
theorem c2_critical_steps_witness :
    runDemo (fun t => t == Step.createIndexes) = demoSequence ++ [Step.disconnect] :=
  (c2_critical_steps Step.createIndexes (by decide)).2.1 (by decide)

/-- C3 (counterexample): with the posts collection empty and no users at
all, the startup seed inserts nothing — the `if (userList.length)` guard
blocks the insert — contradicting "the insert happens regardless of how many
users exist". -/
theorem c3_counterexample :
    (seedIfEmpty { users := [], posts := [] } (fun n => n)).posts = [] := by
  decide

/-- C3 (amended): when the posts collection is empty, the seed does nothing
if there are no users; if at least one user exists it inserts the four fixed
sample posts, the i-th referencing the user at position i when present
(positions 1..3 via optional chaining, so an absent user yields an absent
reference), with no further bounds check against fewer than four users. -/
theorem c3_seed_behavior (st : DBState) (fresh : Nat → OId) (hempty : st.posts = []) :
    (st.users = [] → seedIfEmpty st fresh = st) ∧
    (st.users ≠ [] →
      (seedIfEmpty st fresh).users = st.users ∧
      (seedIfEmpty st fresh).posts.map Post.title =
        ["Hello from Emma", "Liam on the Beach", "Sophia’s Cooking", "Noah’s Hike"] ∧
      (seedIfEmpty st fresh).posts.map Post.userId =
        [(st.users[0]?).map User._id, (st.users[1]?).map User._id,
         (st.users[2]?).map User._id, (st.users[3]?).map User._id]) := by
  constructor
  · intro hu
    simp [seedIfEmpty, hempty, hu]
  · intro hu
    have hlen : st.users.length ≠ 0 := by simpa [List.length_eq_zero] using hu
    simp [seedIfEmpty, seedSamplePosts, hempty, hlen]

/-- A sample stored user used by concrete witnesses. -/
def sampleUser1 : User :=
  { _id := 1, name := some ("Emma"), email := "emma@example.com", age := some 29,
    address := { street := "", city := "", zipCode := "" } }

/-- C3 (witness): seeding a state with one user and no posts inserts the
four sample posts; only the first references a user. -/
theorem c3_seed_behavior_witness :
    (seedIfEmpty { users := [sampleUser1], posts := [] } (fun n => n + 10)).users =
      [sampleUser1] ∧
    (seedIfEmpty { users := [sampleUser1], posts := [] } (fun n => n + 10)).posts.map
        Post.title =
      ["Hello from Emma", "Liam on the Beach", "Sophia’s Cooking", "Noah’s Hike"] ∧
    (seedIfEmpty { users := [sampleUser1], posts := [] } (fun n => n + 10)).posts.map
        Post.userId =
      [some 1, none, none, none] := by
  have h := (c3_seed_behavior { users := [sampleUser1], posts := [] }
    (fun n => n + 10) rfl).2 (by decide)
  simpa using h

/-- C1: a `POST /api/users` request whose trimmed, lowercased email equals a
stored user's email gets a 400 JSON error and leaves the collection
unchanged; one whose normalized email is unused inserts a user carrying the
normalized email and returns it. -/
theorem c1_user_email_unique (st : DBState) (req : UserReq) (newId : OId) :
    ((∃ u ∈ st.users, u.email = normalizeEmail (req.email.getD "")) →
      postUsers st req newId = (st, Resp.err 400 "Email already exists")) ∧
    ((∀ u ∈ st.users, u.email ≠ normalizeEmail (req.email.getD "")) →
      ∃ user, postUsers st req newId =
          ({ users := st.users ++ [user], posts := st.posts }, Resp.jsonUser user) ∧
        user.email = normalizeEmail (req.email.getD "")) := by
  constructor
  · rintro ⟨u, hu, he⟩
    have hsome :
        (st.users.find? (fun v => v.email == normalizeEmail (req.email.getD ""))).isSome := by
      rw [List.find?_isSome]
      exact ⟨u, hu, by simp [he]⟩
    obtain ⟨v, hv⟩ := Option.isSome_iff_exists.mp hsome
    simp [postUsers, hv]
  · intro h
    have hnone :
        st.users.find? (fun v => v.email == normalizeEmail (req.email.getD "")) = none := by
      rw [List.find?_eq_none]
      intro v hv
      simpa using h v hv
    refine ⟨{ _id := newId, name := req.name,
              email := normalizeEmail (req.email.getD ""),
              age := req.age,
              address := buildAddress req.street req.city req.zipCode }, ?_, rfl⟩
    simp [postUsers, hnone]

/-- C1 (witness): with one stored user, a request whose email normalizes to
the stored one is rejected with 400 and the state kept; a fresh email is
inserted and returned normalized. -/
theorem c1_user_email_unique_witness :
    postUsers { users := [sampleUser1], posts := [] }
      { name := some ("Em"), email := some (" EMMA@Example.com "), age := none,
        street := none, city := none, zipCode := none } 5 =
      ({ users := [sampleUser1], posts := [] }, Resp.err 400 "Email already exists") ∧
    ∃ user, postUsers { users := [sampleUser1], posts := [] }
        { name := some ("Bob"), email := some ("bob@example.com"), age := some 40,
          street := none, city := none, zipCode := none } 6 =
        ({ users := [sampleUser1] ++ [user], posts := [] }, Resp.jsonUser user) ∧
      user.email = normalizeEmail ((some ("bob@example.com")).getD "") := by
  constructor
  · exact (c1_user_email_unique { users := [sampleUser1], posts := [] } _ 5).1
      ⟨sampleUser1, by simp, by decide⟩
  · exact (c1_user_email_unique { users := [sampleUser1], posts := [] } _ 6).2 (by decide)

/-- C5 (counterexample): `POST /api/users` does not validate presence of its
user fields: a request with no name and no age (only an email) is not
rejected — the handler answers with a success envelope and inserts one
document. -/
theorem c5_counterexample :
    (postUsers { users := [], posts := [] }
      { name := none, email := some ("a@b.c"), age := none, street := none,
        city := none, zipCode := none } 1).2 =
      Resp.jsonUser
        { _id := 1, name := none, email := "a@b.c", age := none,
          address := { street := "", city := "", zipCode := "" } } ∧
    (postUsers { users := [], posts := [] }
      { name := none, email := some ("a@b.c"), age := none, street := none,
        city := none, zipCode := none } 1).1.users.length = 1 := by
  constructor <;> rfl

/-- C5 (amended): `POST /api/posts` does validate presence, answering 400
"Missing fields" with the state unchanged whenever userId, title or body is
falsy; `POST /api/users` performs no presence validation — the only client
error it can produce is the duplicate-email 400. -/
theorem c5_field_validation (st : DBState) (req : PostReq) (ureq : UserReq) (newId : OId) :
    ((truthy req.userId = false ∨ truthy req.title = false ∨ truthy req.body = false) →
      postPosts st req newId = (st, Resp.err 400 "Missing fields")) ∧
    (∀ status msg, (postUsers st ureq newId).2 = Resp.err status msg →
      status = 400 ∧ msg = "Email already exists") := by
  constructor
  · intro h
    have hcond : (!truthy req.userId || !truthy req.title || !truthy req.body) = true := by
      rcases h with h | h | h <;> simp [h]
    simp [postPosts, hcond]
  · intro status msg h
    rcases hfind : st.users.find?
        (fun u => u.email == normalizeEmail (ureq.email.getD "")) with _ | v
    · simp [postUsers, hfind] at h
    · simp [postUsers, hfind, Resp.err.injEq] at h
      exact ⟨h.1.symm, h.2.symm⟩

/-- C5 (witness): a post request without a userId is rejected with 400 and
no insertion. -/
theorem c5_field_validation_witness :
    postPosts { users := [], posts := [] }
      { userId := none, title := some ("t"), body := some ("b") } 1 =
      ({ users := [], posts := [] }, Resp.err 400 "Missing fields") :=
  (c5_field_validation { users := [], posts := [] }
    { userId := none, title := some ("t"), body := some ("b") }
    { name := none, email := none, age := none, street := none, city := none,
      zipCode := none } 1).1 (Or.inl rfl)

/-- A string accepted by `ObjectId.createFromHexString` is nonempty. -/
lemma parseObjectId_ne_empty {s : String} {x : OId} (h : parseObjectId s = some x) :
    s ≠ "" := by
  intro he
  subst he
  simp [parseObjectId] at h

/-- C6: a `POST /api/posts` request with all three fields present and a
well-formed userId inserts a post referencing the (first) user with that id
and returns the new post's id when such a user exists, and answers 404 with
the state unchanged when none does. -/
theorem c6_post_referenced_user (st : DBState) (req : PostReq) (newId : OId)
    (uidStr : String) (uid : OId) (hfield : req.userId = some uidStr)
    (hparse : parseObjectId uidStr = some uid)
    (htitle : truthy req.title = true) (hbody : truthy req.body = true) :
    ((∃ u ∈ st.users, u._id = uid) →
      ∃ p, postPosts st req newId =
          ({ users := st.users, posts := st.posts ++ [p] }, Resp.jsonId newId) ∧
        p.userId = some uid) ∧
    ((∀ u ∈ st.users, u._id ≠ uid) →
      postPosts st req newId = (st, Resp.err 404 "User not found")) := by
  have hne : uidStr ≠ "" := parseObjectId_ne_empty hparse
  have huid : truthy (some uidStr) = true := by simp [truthy, hne]
  constructor
  · rintro ⟨u, hu, hid⟩
    have hsome : (st.users.find? (fun v => v._id == uid)).isSome := by
      rw [List.find?_isSome]
      exact ⟨u, hu, by simp [hid]⟩
    obtain ⟨v, hv⟩ := Option.isSome_iff_exists.mp hsome
    have hvid : v._id = uid := by simpa using List.find?_some hv
    refine ⟨{ _id := newId, title := req.title.getD "",
              body := req.body.getD "",
              userId := some v._id }, ?_, by simp [hvid]⟩
    simp [postPosts, huid, htitle, hbody, hfield, hparse, hv]
  · intro h
    have hnone : st.users.find? (fun v => v._id == uid) = none := by
      rw [List.find?_eq_none]
      intro v hv
      simpa using h v hv
    simp [postPosts, huid, htitle, hbody, hfield, hparse, hnone]

/-- C6 (witness): against a store holding the sample user (id 1), a request
naming that id inserts a post referencing it; this applies the main theorem
at a concrete input. -/
theorem c6_post_referenced_user_witness :
    ∃ p, postPosts { users := [sampleUser1], posts := [] }
        { userId := some ("000000000000000000000001"), title := some ("T"),
          body := some ("B") } 9 =
        ({ users := [sampleUser1], posts := [] ++ [p] }, Resp.jsonId 9) ∧
      p.userId = some 1 :=
  (c6_post_referenced_user { users := [sampleUser1], posts := [] }
    { userId := some ("000000000000000000000001"), title := some ("T"),
      body := some ("B") } 9 ("000000000000000000000001") 1 rfl (by decide) (by decide)
    (by decide)).1 ⟨sampleUser1, by simp, rfl⟩

/-- C7: `DELETE /api/posts/:id` with a well-formed id removes exactly the
first post with that id — the rest of the list is untouched — and answers
success; when no post has the id it answers 404 with the state unchanged. -/
theorem c7_delete_exactly_one (st : DBState) (idStr : String) (pid : OId)
    (hparse : parseObjectId idStr = some pid) :
    ((∃ p ∈ st.posts, p._id = pid) →
      ∃ p l₁ l₂, p._id = pid ∧ st.posts = l₁ ++ p :: l₂ ∧
        deletePost st idStr = ({ users := st.users, posts := l₁ ++ l₂ }, Resp.jsonOk)) ∧
    ((∀ p ∈ st.posts, p._id ≠ pid) →
      deletePost st idStr = (st, Resp.err 404 "Not found")) := by
  constructor
  · rintro ⟨p, hp, hid⟩
    have hany : st.posts.any (fun q => q._id == pid) = true := by
      rw [List.any_eq_true]
      exact ⟨p, hp, by simp [hid]⟩
    obtain ⟨q, l₁, l₂, hl₁, hq, hsplit, herase⟩ :=
      List.exists_of_eraseP (p := fun q => q._id == pid) hp (by simp [hid])
    refine ⟨q, l₁, l₂, by simpa using hq, hsplit, ?_⟩
    simp [deletePost, hparse, hany, herase]
  · intro h
    have hany : st.posts.any (fun q => q._id == pid) = false := by
      simp only [List.any_eq_false]
      intro q hq
      simpa using h q hq
    simp [deletePost, hparse, hany]

/-- A sample stored post used by concrete witnesses (already assigned to
user 1). -/
def samplePost1 : Post := { _id := 2, title := "t", body := "b", userId := some 1 }

/-- C7 (witness): deleting the only post by its id empties the collection;
deleting by an unknown (well-formed) id answers 404. -/
theorem c7_delete_exactly_one_witness :
    (∃ p l₁ l₂, p._id = 2 ∧ [samplePost1] = l₁ ++ p :: l₂ ∧
      deletePost { users := [sampleUser1], posts := [samplePost1] }
        ("000000000000000000000002") =
        ({ users := [sampleUser1], posts := l₁ ++ l₂ }, Resp.jsonOk)) ∧
    deletePost { users := [sampleUser1], posts := [samplePost1] }
        ("000000000000000000000003") =
      ({ users := [sampleUser1], posts := [samplePost1] }, Resp.err 404 "Not found") :=
  ⟨(c7_delete_exactly_one { users := [sampleUser1], posts := [samplePost1] }
      ("000000000000000000000002") 2 (by decide)).1 ⟨samplePost1, by simp, rfl⟩,
   (c7_delete_exactly_one { users := [sampleUser1], posts := [samplePost1] }
      ("000000000000000000000003") 3 (by decide)).2 (by decide)⟩

/-- When `updateOneAssign` reports `modifiedCount = 1`, the posts list splits
around the first post with the target id, which is updated in place. -/
lemma updateOneAssign_spec (ps : List Post) (pid uid : OId) :
    (updateOneAssign ps pid uid).2 = 1 →
    ∃ l₁ p l₂, ps = l₁ ++ p :: l₂ ∧ p._id = pid ∧
      (updateOneAssign ps pid uid).1 = l₁ ++ { p with userId := some uid } :: l₂ := by
  induction ps with
  | nil => intro h; simp [updateOneAssign] at h
  | cons q ps ih =>
    intro h
    by_cases hq : q._id = pid
    · refine ⟨[], q, ps, rfl, hq, ?_⟩
      simp [updateOneAssign, hq]
    · have h' : (updateOneAssign ps pid uid).2 = 1 := by
        simpa [updateOneAssign, hq] using h
      obtain ⟨l₁, p, l₂, hsplit, hpid, hres⟩ := ih h'
      exact ⟨q :: l₁, p, l₂, by simp [hsplit], hpid, by simp [updateOneAssign, hq, hres]⟩

/-- When every post with the target id already stores the target value,
`updateOneAssign` changes nothing and reports `modifiedCount = 0`. -/
lemma updateOneAssign_noChange (ps : List Post) (pid uid : OId) :
    (∀ q ∈ ps, q._id = pid → q.userId = some uid) →
    updateOneAssign ps pid uid = (ps, 0) := by
  induction ps with
  | nil => intro h; rfl
  | cons q ps ih =>
    intro h
    by_cases hq : q._id = pid
    · have hv := h q (List.mem_cons_self q ps) hq
      have heq : ({ _id := pid, title := q.title, body := q.body,
                    userId := some uid } : Post) = q := by
        rw [← hq, ← hv]
      simp [updateOneAssign, hq, hv, heq]
    · have h' : ∀ r ∈ ps, r._id = pid → r.userId = some uid := fun r hr => h r
        (List.mem_cons_of_mem q hr)
      simp [updateOneAssign, hq, ih h']

/-- C8: a successful `PATCH /api/posts/:id/assign` leaves the users
collection untouched and rewrites exactly the first post carrying the parsed
id, changing only its `userId` field (to the id of a stored user); every
other post, and every other field of the targeted post, is unchanged. -/
theorem c8_assign_frame (st : DBState) (postIdStr : String) (userIdStr : Option String)
    (h : (patchAssign st postIdStr userIdStr).2 = Resp.jsonOk) :
    (patchAssign st postIdStr userIdStr).1.users = st.users ∧
    ∃ pid uid l₁ p l₂,
      parseObjectId postIdStr = some pid ∧
      (∃ u ∈ st.users, u._id = uid) ∧
      st.posts = l₁ ++ p :: l₂ ∧ p._id = pid ∧
      (patchAssign st postIdStr userIdStr).1.posts =
        l₁ ++ { p with userId := some uid } :: l₂ := by
  rcases hu : userIdStr.bind parseObjectId with _ | uid
  · simp [patchAssign, hu] at h
  rcases hfind : st.users.find? (fun u => u._id == uid) with _ | user
  · simp [patchAssign, hu, hfind] at h
  rcases hpp : parseObjectId postIdStr with _ | pid
  · simp [patchAssign, hu, hfind, hpp] at h
  by_cases hn : (updateOneAssign st.posts pid user._id).2 = 1
  · obtain ⟨l₁, p, l₂, hsplit, hpid, hres⟩ := updateOneAssign_spec st.posts pid user._id hn
    refine ⟨?_, pid, user._id, l₁, p, l₂, rfl,
      ⟨user, List.mem_of_find?_eq_some hfind, rfl⟩, hsplit, hpid, ?_⟩
    · simp [patchAssign, hu, hfind, hpp, hn]
    · simp [patchAssign, hu, hfind, hpp, hn, hres]
  · exfalso
    simp [patchAssign, hu, hfind, hpp, hn] at h

/-- A sample stored post not yet assigned to any user, for witnesses. -/
def samplePost2 : Post := { _id := 3, title := "t2", body := "b2", userId := none }

/-- C8 (witness): assigning the unassigned sample post to user 1 succeeds
and the frame property holds at this concrete state. -/
theorem c8_assign_frame_witness :
    (patchAssign { users := [sampleUser1], posts := [samplePost2] }
      ("000000000000000000000003") (some ("000000000000000000000001"))).1.users =
      ({ users := [sampleUser1], posts := [samplePost2] } : DBState).users ∧
    ∃ pid uid l₁ p l₂,
      parseObjectId ("000000000000000000000003") = some pid ∧
      (∃ u ∈ ({ users := [sampleUser1], posts := [samplePost2] } : DBState).users,
        u._id = uid) ∧
      ({ users := [sampleUser1], posts := [samplePost2] } : DBState).posts =
        l₁ ++ p :: l₂ ∧ p._id = pid ∧
      (patchAssign { users := [sampleUser1], posts := [samplePost2] }
        ("000000000000000000000003") (some ("000000000000000000000001"))).1.posts =
        l₁ ++ { p with userId := some uid } :: l₂ :=
  c8_assign_frame { users := [sampleUser1], posts := [samplePost2] }
    ("000000000000000000000003") (some ("000000000000000000000001")) (by decide)

/-- C10: `PATCH /api/posts/:id/assign` is not idempotent: when both the post
and the user exist but the post already references that user, `updateOne`
modifies nothing and the endpoint answers 404 "Post not found or not
changed", leaving the state as it was. -/
theorem c10_assign_not_idempotent (st : DBState) (postIdStr userIdStr : String)
    (pid uid : OId) (p : Post) (u : User)
    (hpp : parseObjectId postIdStr = some pid)
    (hpu : parseObjectId userIdStr = some uid)
    (hu : u ∈ st.users) (huid : u._id = uid)
    (hp : p ∈ st.posts) (hpid : p._id = pid)
    (hnodup : (st.posts.map Post._id).Nodup)
    (hassigned : p.userId = some uid) :
    patchAssign st postIdStr (some userIdStr) =
      (st, Resp.err 404 "Post not found or not changed") := by
  have hsome : (st.users.find? (fun v => v._id == uid)).isSome := by
    rw [List.find?_isSome]
    exact ⟨u, hu, by simp [huid]⟩
  obtain ⟨v, hv⟩ := Option.isSome_iff_exists.mp hsome
  have hvid : v._id = uid := by simpa using List.find?_some hv
  have hall : ∀ q ∈ st.posts, q._id = pid → q.userId = some v._id := by
    intro q hq hqid
    have hqp : q = p := List.inj_on_of_nodup_map hnodup hq hp (by rw [hqid, hpid])
    rw [hqp, hassigned, hvid]
  have hupd := updateOneAssign_noChange st.posts pid v._id hall
  simp [patchAssign, hpu, hv, hpp, hupd]

/-- C10 (witness): at a concrete state where post 2 already references user
1, re-assigning it to user 1 answers 404 and changes nothing. -/
theorem c10_assign_not_idempotent_witness :
    patchAssign { users := [sampleUser1], posts := [samplePost1] }
      ("000000000000000000000002") (some ("000000000000000000000001")) =
      ({ users := [sampleUser1], posts := [samplePost1] },
       Resp.err 404 "Post not found or not changed") :=
  c10_assign_not_idempotent { users := [sampleUser1], posts := [samplePost1] }
    ("000000000000000000000002") ("000000000000000000000001") 2 1 samplePost1
    sampleUser1 (by decide) (by decide) (by simp) rfl (by simp) rfl (by simp) rfl

/-- C4: starting from exactly four users (with distinct ids) and zero posts,
the startup seed followed by `GET /api/posts` yields exactly four posts, the
i-th carrying the id of — and joined to — the i-th user. -/
theorem c4_seed_then_get (u0 u1 u2 u3 : User) (fresh : Nat → OId)
    (hnodup : ([u0, u1, u2, u3].map User._id).Nodup) :
    (getPosts (seedIfEmpty { users := [u0, u1, u2, u3], posts := [] } fresh)).length = 4 ∧
    (getPosts (seedIfEmpty { users := [u0, u1, u2, u3], posts := [] } fresh)).map
        (fun pw => (pw.post.userId, pw.user)) =
      [(some u0._id, some u0), (some u1._id, some u1),
       (some u2._id, some u2), (some u3._id, some u3)] := by
  simp only [List.map_cons, List.map_nil, List.nodup_cons, List.mem_cons,
    List.not_mem_nil, List.mem_singleton, or_false, not_or, List.nodup_nil,
    and_true] at hnodup
  obtain ⟨⟨h01, h02, h03⟩, ⟨h12, h13⟩, h23, -⟩ := hnodup
  have b01 : (u0._id == u1._id) = false := by simp [h01]
  have b02 : (u0._id == u2._id) = false := by simp [h02]
  have b03 : (u0._id == u3._id) = false := by simp [h03]
  have b12 : (u1._id == u2._id) = false := by simp [h12]
  have b13 : (u1._id == u3._id) = false := by simp [h13]
  have b23 : (u2._id == u3._id) = false := by simp [h23]
  constructor <;>
    simp [getPosts, seedIfEmpty, seedSamplePosts, List.find?, b01, b02, b03,
      b12, b13, b23]

/-- Three more sample users with distinct ids, for the C4 witness. -/
def sampleUser2 : User :=
  { _id := 21, name := some ("Liam"), email := "liam@example.com", age := some 24,
    address := { street := "", city := "", zipCode := "" } }

/-- Sample user number three. -/
def sampleUser3 : User :=
  { _id := 22, name := some ("Sophia"), email := "sophia@example.com", age := some 34,
    address := { street := "", city := "", zipCode := "" } }

/-- Sample user number four. -/
def sampleUser4 : User :=
  { _id := 23, name := some ("Noah"), email := "noah@example.com", age := some 27,
    address := { street := "", city := "", zipCode := "" } }

/-- C4 (witness): with the four concrete sample users and no posts, seeding
and reading posts joins each seeded post to its positional user. -/
theorem c4_seed_then_get_witness :
    (getPosts (seedIfEmpty
      { users := [sampleUser1, sampleUser2, sampleUser3, sampleUser4], posts := [] }
      (fun n => n + 100))).length = 4 ∧
    (getPosts (seedIfEmpty
      { users := [sampleUser1, sampleUser2, sampleUser3, sampleUser4], posts := [] }
      (fun n => n + 100))).map (fun pw => (pw.post.userId, pw.user)) =
      [(some sampleUser1._id, some sampleUser1), (some sampleUser2._id, some sampleUser2),
       (some sampleUser3._id, some sampleUser3), (some sampleUser4._id, some sampleUser4)] :=
  c4_seed_then_get sampleUser1 sampleUser2 sampleUser3 sampleUser4 (fun n => n + 100)
    (by decide)

end MongoDemo
